import Mathlib

/-!
Verification of the fake-news detection service in `src/app.py`.

The analysis pipeline `safe_analyze_news` (app.py lines 212-339), the cached
headline fetcher `safe_fetch_headlines` (lines 136-160) and the HTTP handler
`analyze_news` (lines 352-391) are embedded shallowly.  Python floats are
modelled as rationals; every effectful collaborator (the translator, the
vectorizer, the classifier, the network) appears as a field of an `Env`
record, with `Except.error`/`none` standing for a raised exception at the
corresponding call site.  `math.exp` is an abstract total oracle `ℚ → ℚ`:
every claim about the probability computation is structural (which branch and
which formula is used), not about values of the exponential.
-/

/-- Return type of `safe_analyze_news` (app.py line 326): six strings. -/
abbrev Result6 := String × String × String × String × String × String

/-- Python `str.split()`: split on whitespace runs, dropping empty pieces.
Implemented by structural recursion on the character list so that concrete
runs reduce in the kernel. -/
def splitWsAux : List Char → List Char → List String
  | [], acc => if acc.isEmpty then [] else [String.mk acc.reverse]
  | c :: cs, acc =>
    if c.isWhitespace then
      if acc.isEmpty then splitWsAux cs [] else String.mk acc.reverse :: splitWsAux cs []
    else splitWsAux cs (c :: acc)

/-- Python `" ".join(ws)`. -/
def joinSpace : List String → String
  | [] => ""
  | [w] => w
  | w :: ws => w ++ " " ++ joinSpace ws

/-- app.py line 245: `" ".join(translated.split()[:5])`. -/
def firstFiveWords (s : String) : String :=
  joinSpace ((splitWsAux s.data []).take 5)

/-- The Python truthiness guard `not text or not text.strip()` (app.py
line 214): true exactly when the text is empty or entirely whitespace. -/
def isBlank (s : String) : Bool := s.data.all Char.isWhitespace

/-- Python `headlines.startswith("(")` (app.py line 249). -/
def startsWithParen (s : String) : Bool :=
  match s.data with
  | [] => false
  | c :: _ => c = '('

/-- The keyword arguments of `safe_analyze_news` (app.py line 212).
`positive_label : Option String` models the Python truthiness convention used
in `positive_label or d` (lines 275, 302, 303): `none` stands for a falsy
value (`None` or the empty string). -/
structure Config where
  use_headlines : Bool
  use_gemini : Bool
  margin : ℚ
  sim_weight : ℚ
  positive_label : Option String
  prob_threshold : ℚ
  disable_translation : Bool

/-- Module-level state and external collaborators of `app.py`.  Each field
models a module-level flag or the outcome of an effectful call;
`Except.error e` models a raised exception carrying message `str(e)`, and
`none` models a raised exception where the code falls back silently. -/
structure Env where
  /-- `MODEL_LOADED`, app.py lines 65/69. -/
  modelLoaded : Bool
  /-- `TRANSLATOR_AVAILABLE`, app.py line 38/41. -/
  translatorAvailable : Bool
  /-- `GoogleTranslator(source="auto", target="en").translate`, line 226;
  `none` models the `except` at line 227 (fall back to the original text). -/
  translate : String → Option String
  /-- `vectorizer.transform([translated])`, line 232.  The vector itself is
  opaque (it is only consumed by the oracles below), so the payload is `Unit`;
  `Except.error e` models the exception at line 233. -/
  vectorize : String → Except String Unit
  /-- `model.decision_function(vect)[0]` and `model.predict(vect)[0]`,
  lines 238-239, as a pair (raw score, predicted label);
  `Except.error e` models the exception at line 241. -/
  decision : Except String (ℚ × String)
  /-- The cached headline fetcher `safe_fetch_headlines` viewed as a pure
  query-to-text map (it returns a string on every path). -/
  fetchHeadlines : String → String
  /-- Outcome of the cosine-similarity `try` block, lines 250-262: `some v`
  is a computed value (including the zero-norm `0.0` case at line 260),
  `none` is the `except` at line 261. -/
  simTry : Option ℚ
  /-- `hasattr(model, "predict_proba")`, line 277. -/
  hasPredictProba : Bool
  /-- `model.predict_proba(vect)[0]`, line 278. -/
  proba : List ℚ
  /-- `[str(c) for c in getattr(model, "classes_", ["FAKE", "REAL"])]`,
  lines 274 and 301. -/
  classes : List String
  /-- Oracle for `math.exp` (lines 283, 289); the real exponential is
  abstracted as a total function. -/
  exp : ℚ → ℚ
  /-- `GEMINI_READY`, lines 78/82/85. -/
  geminiReady : Bool
  /-- `gemini.generate_content(prompt).text`, line 317; `Except.error e`
  models the exception at line 318. -/
  gemini : Except String String
  /-- `safe_explain_prediction(vect)`, line 324 (total: every path of that
  function returns a string). -/
  explanation : String
  /-- `safe_extract_url_text`, line 359 (total: every path returns a
  string). -/
  extractUrl : String → String

/-- app.py lines 221-228: translation with silent fallback to the original
text when translation is disabled, unavailable, or raises. -/
def translateStep (env : Env) (cfg : Config) (text : String) : String :=
  if cfg.disable_translation = true ∨ env.translatorAvailable = false then text
  else (env.translate text).getD text

/-- app.py lines 265-268: the damping factor.  `factor = 1.0`, and when a
similarity value is present `factor = 1 - sim_weight * (1 - sim_clamped)`
with `sim_clamped = max(0.0, min(1.0, sim_value))`. -/
def scoreFactor (w : ℚ) (sv : Option ℚ) : ℚ :=
  match sv with
  | none => 1
  | some v => 1 - w * (1 - max 0 (min 1 v))

/-- app.py line 269: `adjusted_score = raw_score * factor`. -/
def adjustedOf (raw w : ℚ) (sv : Option ℚ) : ℚ := raw * scoreFactor w sv

/-- The expression `model_classes[1] if len(model_classes) > 1 else
model_classes[0]` (app.py lines 275, 284, 290, 303). -/
def defaultPositive (classes : List String) : String :=
  if 1 < classes.length then classes.getD 1 "" else classes.getD 0 ""

/-- app.py line 279: `model_classes.index(pos_label) if pos_label in
model_classes else 1`. -/
def posIndex (classes : List String) (pos : String) : ℕ :=
  if pos ∈ classes then classes.indexOf pos else 1

/-- app.py line 280 as written: `proba[pos_index]`, the value assigned to
`prob_raw` in the `predict_proba` branch before line 289 executes. -/
def probRawPP (classes : List String) (pos : String) (proba : List ℚ) : ℚ :=
  proba.getD (posIndex classes pos) 0

/-- app.py lines 283/289: `1.0 / (1.0 + math.exp(-score))`. -/
def sigmoid (exp : ℚ → ℚ) (x : ℚ) : ℚ := 1 / (1 + exp (-x))

/-- app.py lines 284-287 and 290-293: the sigmoid is kept when the positive
label equals the default second class, and flipped to `1 - s` otherwise. -/
def orientProb (classes : List String) (pos : String) (s : ℚ) : ℚ :=
  if pos = defaultPositive classes then s else 1 - s

/-- app.py lines 272-297, the probability `try` block, returning
`(prob_raw, prob_adj)` or `none` when the block raises and the `except` at
line 295 sets both to `None`.

Two exception paths are modelled:
* `hasPredictProba = true`: line 282 (`import math`) executes only in the
  *other* branch, so `math` is an unassigned local variable at line 289 and
  the branch always raises `UnboundLocalError` there; the probabilities
  computed at lines 278-280 are discarded.
* an empty class list: lines 275/284 index `model_classes`, raising
  `IndexError` inside the `try`. -/
def probPair (hasPP : Bool) (proba : List ℚ) (classes : List String)
    (posArg : Option String) (exp : ℚ → ℚ) (raw adj : ℚ) : Option (ℚ × ℚ) :=
  if hasPP then none
  else if classes.isEmpty then none
  else
    let pos := posArg.getD (defaultPositive classes)
    some (orientProb classes pos (sigmoid exp raw), orientProb classes pos (sigmoid exp adj))

/-- app.py line 303: `positive_label or (model_classes[1] if ... else
model_classes[0])`. -/
def chosenPositive (classes : List String) (posArg : Option String) : String :=
  posArg.getD (defaultPositive classes)

/-- app.py line 302, literally: `model_classes[0] if (positive_label or
(len(model_classes) > 1 and model_classes[1])) != model_classes[0] else
(model_classes[1] if len(model_classes) > 1 else model_classes[0])`.
When `positive_label` is falsy and the class list has at most one element,
the Python comparison is `False != model_classes[0]`, which is `True`. -/
def otherLabel (classes : List String) (posArg : Option String) : String :=
  let c0 := classes.getD 0 ""
  let ne : Bool :=
    match posArg with
    | some p => p != c0
    | none => if 1 < classes.length then classes.getD 1 "" != c0 else true
  if ne then c0 else (if 1 < classes.length then classes.getD 1 "" else c0)

/-- app.py lines 305-308: the label assigned before the UNSURE override. -/
def labelBeforeOverride (classes : List String) (posArg : Option String)
    (probs : Option (ℚ × ℚ)) (thr adj : ℚ) : String :=
  match probs with
  | some pr => if thr ≤ pr.2 then chosenPositive classes posArg else otherLabel classes posArg
  | none => if 0 ≤ adj then chosenPositive classes posArg else otherLabel classes posArg

/-- app.py lines 299-311: the decision including the UNSURE deadband at
lines 310-311. -/
def finalLabelOf (classes : List String) (posArg : Option String)
    (probs : Option (ℚ × ℚ)) (thr adj margin : ℚ) : String :=
  if |adj| < margin then "UNSURE" else labelBeforeOverride classes posArg probs thr adj

/-- app.py line 245: the headlines string. -/
def coreHeadlines (env : Env) (cfg : Config) (translated : String) : String :=
  if cfg.use_headlines then env.fetchHeadlines (firstFiveWords translated)
  else "(Headlines disabled)"

/-- app.py lines 248-262: `sim_value` is only computed when headlines are in
use, non-empty and not a parenthesised placeholder; otherwise it stays
`None`. -/
def coreSim (env : Env) (cfg : Config) (translated : String) : Option ℚ :=
  if cfg.use_headlines = true ∧ coreHeadlines env cfg translated ≠ "" ∧
      startsWithParen (coreHeadlines env cfg translated) = false
  then env.simTry else none

/-- app.py lines 314-321: the Gemini commentary string. -/
def coreGemini (env : Env) (cfg : Config) : String :=
  if cfg.use_gemini = true ∧ env.geminiReady = true then
    match env.gemini with
    | Except.ok t => t
    | Except.error e => "❌ Gemini Error: " ++ e
  else "(Gemini disabled or unavailable)"

/-- The intermediate values of one successful run of `safe_analyze_news`
(lines 220-336): every local of the Python function that feeds the returned
six strings. -/
structure CoreOut where
  translated : String
  predLabel : String
  headlines : String
  simValue : Option ℚ
  raw : ℚ
  adjusted : ℚ
  probs : Option (ℚ × ℚ)
  labelPre : String
  labelFinal : String
  geminiResponse : String
  explanation : String

/-- The straight-line tail of `safe_analyze_news` (app.py lines 244-324)
run after vectorization and prediction succeeded with raw score `raw` and
predicted label `pred`. -/
def mkCore (env : Env) (cfg : Config) (translated : String) (raw : ℚ) (pred : String) : CoreOut :=
  { translated := translated
    predLabel := pred
    headlines := coreHeadlines env cfg translated
    simValue := coreSim env cfg translated
    raw := raw
    adjusted := adjustedOf raw cfg.sim_weight (coreSim env cfg translated)
    probs := probPair env.hasPredictProba env.proba env.classes cfg.positive_label env.exp
      raw (adjustedOf raw cfg.sim_weight (coreSim env cfg translated))
    labelPre := labelBeforeOverride env.classes cfg.positive_label
      (probPair env.hasPredictProba env.proba env.classes cfg.positive_label env.exp
        raw (adjustedOf raw cfg.sim_weight (coreSim env cfg translated)))
      cfg.prob_threshold (adjustedOf raw cfg.sim_weight (coreSim env cfg translated))
    labelFinal := finalLabelOf env.classes cfg.positive_label
      (probPair env.hasPredictProba env.proba env.classes cfg.positive_label env.exp
        raw (adjustedOf raw cfg.sim_weight (coreSim env cfg translated)))
      cfg.prob_threshold (adjustedOf raw cfg.sim_weight (coreSim env cfg translated))
      cfg.margin
    geminiResponse := coreGemini env cfg
    explanation := env.explanation }

/-- `safe_analyze_news` up to string assembly (app.py lines 212-324):
`Except.error msg` is an early return `(msg, "", "", "", "", "")`, and
`Except.ok` carries the intermediate values of the success path.
The guard on an empty class list models the `IndexError` that line 302
(`model_classes[0]`) raises into the outer `except` at line 338. -/
def analyzeCore (env : Env) (cfg : Config) (text : String) : Except String CoreOut :=
  if isBlank text = true then Except.error "⚠️ Please enter news content."
  else if env.modelLoaded = false then Except.error "❌ Model not available. Check model files."
  else
    match env.vectorize (translateStep env cfg text) with
    | Except.error e => Except.error ("❌ Text processing error: " ++ e)
    | Except.ok _ =>
      match env.decision with
      | Except.error e => Except.error ("❌ Prediction error: " ++ e)
      | Except.ok rp =>
        if env.classes.isEmpty then Except.error "❌ Analysis error: list index out of range"
        else Except.ok (mkCore env cfg (translateStep env cfg text) rp.1 rp.2)

/-- Python `round(x, 2)` as used for the displayed confidences (lines 240,
270); exact round-half tie behaviour of floats is immaterial to every claim
and is abstracted by Mathlib rounding. -/
def round2 (q : ℚ) : ℚ := ((round (100 * q) : ℤ) : ℚ) / 100

/-- Display of a number (the `:.2f` float formatting is abstracted). -/
def fmtQ (q : ℚ) : String := toString q

/-- app.py lines 329-331: the confidence line. -/
def confidenceLine (cfg : Config) (co : CoreOut) : String :=
  "📊 Confidence (raw/adj): " ++ fmtQ |round2 co.raw| ++ " / " ++ fmtQ |round2 co.adjusted| ++
    (match co.probs with
     | some pr => " | Prob (raw/adj): " ++ fmtQ pr.1 ++ "/" ++ fmtQ pr.2 ++
         " | thr=" ++ fmtQ cfg.prob_threshold
     | none => "")

/-- app.py line 335: the similarity line. -/
def simLine (co : CoreOut) : String :=
  match co.simValue with
  | some v => "Cosine similarity: " ++ fmtQ v
  | none => "Cosine similarity: N/A"

/-- app.py lines 326-336: the six strings returned on the success path. -/
def successResult (cfg : Config) (co : CoreOut) : Result6 :=
  ("🧠 Prediction: " ++ co.labelFinal,
   confidenceLine cfg co,
   "📰 Headlines:\n" ++ co.headlines,
   "🤖 Gemini Insight:\n" ++ co.geminiResponse,
   co.explanation,
   simLine co)

/-- `safe_analyze_news` (app.py lines 212-339): total, returning six strings
on every path. -/
def safe_analyze_news (env : Env) (cfg : Config) (text : String) : Result6 :=
  match analyzeCore env cfg text with
  | Except.error msg => (msg, "", "", "", "", "")
  | Except.ok co => successResult cfg co

/-- The `@lru_cache(maxsize=256)` state on `safe_fetch_headlines` (app.py
line 136): the memo table, most recently used first, plus a counter of calls
that fell through to the undecorated body (each such call performs the
network fetch of lines 148-160). -/
structure HeadlineCache where
  entries : List (String × String)
  fetchCount : ℕ

/-- Lookup in the memo table. -/
def cacheLookup (l : List (String × String)) (q : String) : Option String :=
  (l.find? (fun e => e.1 == q)).map (fun e => e.2)

/-- `safe_fetch_headlines` under its `@lru_cache(maxsize=256)` decorator
(app.py lines 136-137).  The undecorated body (lines 138-160) is the oracle
`fetch`; it returns a string on every path, so it is total.  On a hit the
entry moves to the most-recent position and the body is not called; on a
miss the body is called once, the result is inserted most-recent, and the
table is truncated to 256 entries, dropping the least recently used. -/
def safe_fetch_headlines (fetch : String → String) (s : HeadlineCache) (q : String) :
    String × HeadlineCache :=
  match cacheLookup s.entries q with
  | some v => (v, ⟨(q, v) :: s.entries.eraseP (fun e => e.1 == q), s.fetchCount⟩)
  | none => (fetch q, ⟨((q, fetch q) :: s.entries).take 256, s.fetchCount + 1⟩)

/-- The request body `NewsAnalysisRequest` (app.py lines 118-127). -/
structure Req where
  text : String
  url : String
  useHeadlines : Bool
  useGemini : Bool
  margin : ℚ
  simWeight : ℚ
  positiveLabel : String
  probThreshold : ℚ
  disableTranslation : Bool

/-- The response body `NewsAnalysisResponse` (app.py lines 129-134). -/
structure Resp where
  success : Bool
  result : List String
  modelLoaded : Bool
  geminiReady : Bool
  error : Option String

/-- Conversion of a request string to the truthiness convention of
`Config.positive_label`. -/
def strToOpt (s : String) : Option String := if s = "" then none else some s

/-- The keyword arguments passed at app.py lines 365-374. -/
def cfgOfReq (r : Req) : Config :=
  { use_headlines := r.useHeadlines
    use_gemini := r.useGemini
    margin := r.margin
    sim_weight := r.simWeight
    positive_label := strToOpt r.positiveLabel
    prob_threshold := r.probThreshold
    disable_translation := r.disableTranslation }

/-- The POST `/analyze` handler (app.py lines 352-391) as a map from request
to (HTTP status, body).  The only statement inside the `try` that raises is
`raise HTTPException(status_code=400, detail="No text content provided")`
(line 362); it is an `Exception`, so the blanket `except Exception` at
line 383 catches it and returns a normal 200 response whose `error` field is
`str(e)`, which Starlette renders as `"400: No text content provided"`.
The HTTP status is therefore 200 on every path. -/
def analyze_news (env : Env) (r : Req) : ℕ × Resp :=
  let text := if r.url ≠ "" ∧ r.text = "" then env.extractUrl r.url else r.text
  if text = "" then
    (200, { success := false, result := [],
            modelLoaded := env.modelLoaded, geminiReady := env.geminiReady,
            error := some "400: No text content provided" })
  else
    let t6 := safe_analyze_news env (cfgOfReq r) text
    (200, { success := true,
            result := [t6.1, t6.2.1, t6.2.2.1, t6.2.2.2.1, t6.2.2.2.2.1, t6.2.2.2.2.2],
            modelLoaded := env.modelLoaded, geminiReady := env.geminiReady,
            error := none })

/-! ### Concrete collaborator records used to exercise the theorems -/

/-- A concrete environment: model loaded, translator and Gemini missing,
a two-class model without `predict_proba`, headlines returning one title,
similarity evaluating to `0`. -/
def baseEnv : Env :=
  { modelLoaded := true
    translatorAvailable := false
    translate := fun _ => none
    vectorize := fun _ => Except.ok ()
    decision := Except.ok (1, "REAL")
    fetchHeadlines := fun _ => "- headline one"
    simTry := some 0
    hasPredictProba := false
    proba := []
    classes := ["FAKE", "REAL"]
    exp := fun _ => 1
    geminiReady := false
    gemini := Except.error "unavailable"
    explanation := "Top contributing terms:\n(No strong token contributions detected)"
    extractUrl := fun _ => "" }

/-- A concrete configuration matching the request defaults of app.py
lines 118-127. -/
def baseCfg : Config :=
  { use_headlines := true
    use_gemini := false
    margin := 1/2
    sim_weight := 1/2
    positive_label := some "REAL"
    prob_threshold := 3/5
    disable_translation := false }

/-- Inversion: a pipeline run that produced intermediate values took the
success path of app.py lines 220-336. -/
theorem analyzeCore_ok {env : Env} {cfg : Config} {text : String} {co : CoreOut}
    (h : analyzeCore env cfg text = Except.ok co) :
    ∃ raw pred, env.decision = Except.ok (raw, pred) ∧ env.classes.isEmpty = false ∧
      co = mkCore env cfg (translateStep env cfg text) raw pred := by
  unfold analyzeCore at h
  split at h
  · exact absurd h (by simp)
  split at h
  · exact absurd h (by simp)
  split at h
  · exact absurd h (by simp)
  split at h
  · exact absurd h (by simp)
  split at h
  · exact absurd h (by simp)
  rename_i rp hd hcl
  exact ⟨rp.1, rp.2, hd, Bool.eq_false_iff.mpr hcl, (Except.ok.inj h).symm⟩

/-- C1: for every analysis call that reaches the final decision step, if
`|adjusted_score| < margin` then the returned prediction line reads UNSURE,
regardless of the probability/threshold comparison (the environment, hence
the probability pair, is universally quantified) and regardless of the sign
of the adjusted score (app.py lines 310-311). -/
theorem c1_deadband_unsure (env : Env) (cfg : Config) (text : String) (co : CoreOut)
    (hco : analyzeCore env cfg text = Except.ok co)
    (hm : |co.adjusted| < cfg.margin) :
    (safe_analyze_news env cfg text).1 = "🧠 Prediction: UNSURE" := by
  obtain ⟨raw, pred, hd, hcl, rfl⟩ := analyzeCore_ok hco
  have hm' : |adjustedOf raw cfg.sim_weight (coreSim env cfg (translateStep env cfg text))|
      < cfg.margin := hm
  unfold safe_analyze_news
  rw [hco]
  show "🧠 Prediction: " ++ (mkCore env cfg (translateStep env cfg text) raw pred).labelFinal
      = "🧠 Prediction: UNSURE"
  have hlf : (mkCore env cfg (translateStep env cfg text) raw pred).labelFinal
      = finalLabelOf env.classes cfg.positive_label
          (probPair env.hasPredictProba env.proba env.classes cfg.positive_label env.exp raw
            (adjustedOf raw cfg.sim_weight (coreSim env cfg (translateStep env cfg text))))
          cfg.prob_threshold
          (adjustedOf raw cfg.sim_weight (coreSim env cfg (translateStep env cfg text)))
          cfg.margin := rfl
  rw [hlf, finalLabelOf, if_pos hm']
  rfl

/-- Environment for the C1 witness: raw score `1/2`, so the damped score is
`1/4`, inside the default deadband `margin = 1/2`. -/
def c1Env : Env := { baseEnv with decision := Except.ok (1/2, "REAL") }

/-- The deadband bound of the C1 witness, computed explicitly. -/
theorem c1Env_adjusted_small :
    |adjustedOf (1/2) baseCfg.sim_weight (some 0)| < baseCfg.margin := by
  rw [abs_lt]
  constructor <;> norm_num [adjustedOf, scoreFactor, baseCfg, min_def, max_def]

/-- Witness for C1: a concrete call whose damped score lies in the deadband
and whose prediction line is UNSURE. -/
theorem c1_deadband_unsure_witness :
    (analyzeCore c1Env baseCfg "hello"
      = Except.ok (mkCore c1Env baseCfg (translateStep c1Env baseCfg "hello") (1/2) "REAL")) ∧
    |(mkCore c1Env baseCfg (translateStep c1Env baseCfg "hello") (1/2) "REAL").adjusted|
      < baseCfg.margin ∧
    (safe_analyze_news c1Env baseCfg "hello").1 = "🧠 Prediction: UNSURE" :=
  ⟨rfl, c1Env_adjusted_small, c1_deadband_unsure c1Env baseCfg "hello" _ rfl c1Env_adjusted_small⟩

/-- C2: for every analysis call that reaches the score-adjustment step, when
a similarity value is available the adjusted score is
`raw_score * (1 - simWeight * (1 - clamp(similarity, 0, 1)))`, and when it is
unavailable (headlines disabled, placeholder headlines, or a failed
similarity computation) the adjusted score is the raw score unchanged
(app.py lines 264-269). -/
theorem c2_score_damping (env : Env) (cfg : Config) (text : String) (co : CoreOut)
    (hco : analyzeCore env cfg text = Except.ok co) :
    (∀ v, co.simValue = some v →
        co.adjusted = co.raw * (1 - cfg.sim_weight * (1 - max 0 (min 1 v)))) ∧
    (co.simValue = none → co.adjusted = co.raw) ∧
    (cfg.use_headlines = false → co.simValue = none) ∧
    (startsWithParen co.headlines = true → co.simValue = none) ∧
    (env.simTry = none → co.simValue = none) := by
  obtain ⟨raw, pred, hd, hcl, rfl⟩ := analyzeCore_ok hco
  refine ⟨?_, ?_, ?_, ?_, ?_⟩
  · intro v hv
    have hv' : coreSim env cfg (translateStep env cfg text) = some v := hv
    show adjustedOf raw cfg.sim_weight (coreSim env cfg (translateStep env cfg text))
        = raw * (1 - cfg.sim_weight * (1 - max 0 (min 1 v)))
    rw [adjustedOf, hv']
    rfl
  · intro hv
    have hv' : coreSim env cfg (translateStep env cfg text) = none := hv
    show adjustedOf raw cfg.sim_weight (coreSim env cfg (translateStep env cfg text)) = raw
    rw [adjustedOf, hv']
    show raw * 1 = raw
    rw [mul_one]
  · intro hu
    show coreSim env cfg (translateStep env cfg text) = none
    rw [coreSim, if_neg]
    simp [hu]
  · intro hs
    have hs' : startsWithParen (coreHeadlines env cfg (translateStep env cfg text)) = true := hs
    show coreSim env cfg (translateStep env cfg text) = none
    rw [coreSim, if_neg]
    simp [hs']
  · intro h5
    show coreSim env cfg (translateStep env cfg text) = none
    rw [coreSim]
    split
    · exact h5
    · rfl

/-- Witness for C2: the concrete call of `baseEnv` has similarity `0`, and
its adjusted score is the raw score damped by the claimed formula. -/
theorem c2_score_damping_witness :
    (analyzeCore baseEnv baseCfg "hello"
      = Except.ok (mkCore baseEnv baseCfg (translateStep baseEnv baseCfg "hello") 1 "REAL")) ∧
    (mkCore baseEnv baseCfg (translateStep baseEnv baseCfg "hello") 1 "REAL").simValue = some 0 ∧
    (mkCore baseEnv baseCfg (translateStep baseEnv baseCfg "hello") 1 "REAL").adjusted
      = (mkCore baseEnv baseCfg (translateStep baseEnv baseCfg "hello") 1 "REAL").raw
          * (1 - baseCfg.sim_weight * (1 - max 0 (min 1 0))) :=
  ⟨rfl, rfl, (c2_score_damping baseEnv baseCfg "hello" _ rfl).1 0 rfl⟩

/-- Strict damping holds under the amended hypotheses: similarity below `1`,
weight in `(0, 1]`, nonzero raw score. -/
theorem abs_adjusted_lt (raw w v : ℚ) (hv1 : v < 1) (hw0 : 0 < w) (hw1 : w ≤ 1)
    (hraw : raw ≠ 0) : |adjustedOf raw w (some v)| < |raw| := by
  have hc0 : (0:ℚ) ≤ max 0 (min 1 v) := le_max_left _ _
  have hc1 : max 0 (min 1 v) < 1 :=
    max_lt one_pos (lt_of_le_of_lt (min_le_right _ _) hv1)
  have ht0 : 0 < w * (1 - max 0 (min 1 v)) := mul_pos hw0 (by linarith)
  have ht1 : w * (1 - max 0 (min 1 v)) ≤ 1 := by nlinarith
  have hf0 : (0:ℚ) ≤ 1 - w * (1 - max 0 (min 1 v)) := by linarith
  have hf1 : 1 - w * (1 - max 0 (min 1 v)) < 1 := by linarith
  have habs : |adjustedOf raw w (some v)| = |raw| * (1 - w * (1 - max 0 (min 1 v))) := by
    show |raw * (1 - w * (1 - max 0 (min 1 v)))| = _
    rw [abs_mul, abs_of_nonneg hf0]
  rw [habs]
  calc |raw| * (1 - w * (1 - max 0 (min 1 v))) < |raw| * 1 :=
        mul_lt_mul_of_pos_left hf1 (abs_pos.mpr hraw)
    _ = |raw| := mul_one _

/-- C3 (amended): for every analysis call in which a similarity value
`v < 1` is available, `0 < simWeight ≤ 1`, and the raw score is nonzero,
the absolute adjusted score is strictly below the absolute raw score. -/
theorem c3_strict_damping_amended (env : Env) (cfg : Config) (text : String) (co : CoreOut)
    (v : ℚ) (hco : analyzeCore env cfg text = Except.ok co)
    (hsv : co.simValue = some v) (hv1 : v < 1)
    (hw0 : 0 < cfg.sim_weight) (hw1 : cfg.sim_weight ≤ 1) (hraw : co.raw ≠ 0) :
    |co.adjusted| < |co.raw| := by
  obtain ⟨raw, pred, hd, hcl, rfl⟩ := analyzeCore_ok hco
  have hsv' : coreSim env cfg (translateStep env cfg text) = some v := hsv
  have hraw' : raw ≠ 0 := hraw
  show |adjustedOf raw cfg.sim_weight (coreSim env cfg (translateStep env cfg text))| < |raw|
  rw [hsv']
  exact abs_adjusted_lt raw cfg.sim_weight v hv1 hw0 hw1 hraw'

/-- Configuration with `simWeight = 2` for the C3 counterexample. -/
def c3Cfg : Config := { baseCfg with sim_weight := 2 }

/-- Environment with raw score `0` for the C3 counterexample. -/
def c3EnvZero : Env := { baseEnv with decision := Except.ok (0, "REAL") }

/-- C3 counterexample: the claim as stated fails on the code.  With
`simWeight = 2`, similarity `0 < 1` and raw score `1`, the damping factor is
`-1` and `|adjusted_score| = |raw_score|`; with raw score `0` both absolute
scores are `0`.  In neither concrete call is `|adjusted| < |raw|`. -/
theorem c3_strict_damping_counterexample :
    ((analyzeCore baseEnv c3Cfg "news of the day").map fun co => (co.simValue, co.raw, co.adjusted))
        = Except.ok (some 0, 1, 1 * (1 - 2 * (1 - max 0 (min 1 0)))) ∧
    (1:ℚ) * (1 - 2 * (1 - max 0 (min 1 0))) = -1 ∧
    (0:ℚ) < c3Cfg.sim_weight ∧ (0:ℚ) < 1 ∧ ¬(|(-1:ℚ)| < |(1:ℚ)|) ∧
    ((analyzeCore c3EnvZero baseCfg "news of the day").map
        fun co => (co.simValue, co.raw, co.adjusted))
        = Except.ok (some 0, 0, 0 * (1 - 1/2 * (1 - max 0 (min 1 0)))) ∧
    (0:ℚ) * (1 - 1/2 * (1 - max 0 (min 1 0))) = 0 ∧
    ¬(|(0:ℚ)| < |(0:ℚ)|) := by
  refine ⟨rfl, by norm_num [min_def, max_def], by norm_num [c3Cfg, baseCfg], by norm_num,
    by norm_num, rfl, by norm_num, by norm_num⟩

/-- Environment with native `predict_proba` available, for C4. -/
def c4Env : Env := { baseEnv with hasPredictProba := true, proba := [3/10, 7/10] }

/-- C4 (code bug): when the model exposes `predict_proba`, the probability
block never yields probabilities.  `import math` (app.py line 282) executes
only in the branch *without* `predict_proba`, so in the `predict_proba`
branch line 289 raises `UnboundLocalError` on the local name `math`, the
`except` at line 295 sets `prob_raw = prob_adj = None`, and the decision
falls back to the sign rule — the native probability output computed at
lines 278-280 is discarded on every such call.  The claim (spec step 7)
says the probability estimate is taken from `predict_proba` exactly in this
case. -/
theorem c4_predict_proba_dead_path :
    probPair true [3/10, 7/10] ["FAKE", "REAL"] (some "REAL") (fun x => x) 1 1 = none ∧
    c4Env.hasPredictProba = true ∧
    (analyzeCore c4Env baseCfg "news of the day").map (fun co => co.probs) = Except.ok none :=
  ⟨rfl, rfl, rfl⟩

/-- C5: for every analysis call that reaches the final decision step on a
two-class model with the configured positive label among the classes, the
label before the UNSURE override compares the adjusted probability to the
threshold when that probability is available, and otherwise the sign of the
adjusted score; the alternative is the other class label
(app.py lines 299-308). -/
theorem c5_label_before_override (env : Env) (cfg : Config) (text : String) (co : CoreOut)
    (c0 c1 p : String) (hco : analyzeCore env cfg text = Except.ok co)
    (hcl : env.classes = [c0, c1]) (hne : c0 ≠ c1)
    (hp : cfg.positive_label = some p) (hmem : p = c0 ∨ p = c1) :
    co.labelPre =
      match co.probs with
      | some pr => if cfg.prob_threshold ≤ pr.2 then p else (if p = c0 then c1 else c0)
      | none => if 0 ≤ co.adjusted then p else (if p = c0 then c1 else c0) := by
  obtain ⟨raw, pred, hd, hcle, rfl⟩ := analyzeCore_ok hco
  have hch : chosenPositive env.classes cfg.positive_label = p := by
    simp [chosenPositive, hp]
  have hot : otherLabel env.classes cfg.positive_label = (if p = c0 then c1 else c0) := by
    rcases hmem with rfl | rfl
    · simp [otherLabel, hp, hcl]
    · simp [otherLabel, hp, hcl, bne_iff_ne, Ne.symm hne, hne]
  show labelBeforeOverride env.classes cfg.positive_label
      ((mkCore env cfg (translateStep env cfg text) raw pred).probs)
      cfg.prob_threshold
      ((mkCore env cfg (translateStep env cfg text) raw pred).adjusted) = _
  generalize (mkCore env cfg (translateStep env cfg text) raw pred).probs = P
  generalize (mkCore env cfg (translateStep env cfg text) raw pred).adjusted = A
  cases P with
  | some pr =>
    simp only [labelBeforeOverride]
    rw [hch, hot]
  | none =>
    simp only [labelBeforeOverride]
    rw [hch, hot]

/-- Witness for C5 at the concrete call of `baseEnv`. -/
theorem c5_label_before_override_witness :
    (analyzeCore baseEnv baseCfg "hello"
      = Except.ok (mkCore baseEnv baseCfg (translateStep baseEnv baseCfg "hello") 1 "REAL")) ∧
    baseEnv.classes = ["FAKE", "REAL"] ∧
    baseCfg.positive_label = some "REAL" ∧
    ((mkCore baseEnv baseCfg (translateStep baseEnv baseCfg "hello") 1 "REAL").labelPre =
      match (mkCore baseEnv baseCfg (translateStep baseEnv baseCfg "hello") 1 "REAL").probs with
      | some pr => if baseCfg.prob_threshold ≤ pr.2 then "REAL"
          else (if "REAL" = "FAKE" then "REAL" else "FAKE")
      | none =>
          if 0 ≤ (mkCore baseEnv baseCfg (translateStep baseEnv baseCfg "hello") 1 "REAL").adjusted
          then "REAL" else (if "REAL" = "FAKE" then "REAL" else "FAKE")) :=
  ⟨rfl, rfl, rfl,
    c5_label_before_override baseEnv baseCfg "hello" _ "FAKE" "REAL" "REAL" rfl rfl
      (by decide) rfl (Or.inr rfl)⟩

/-- The request with every field at its pydantic default and empty text and
url (app.py lines 118-127). -/
def emptyReq : Req :=
  { text := "", url := "", useHeadlines := true, useGemini := true,
    margin := 1/2, simWeight := 1/2, positiveLabel := "REAL",
    probThreshold := 3/5, disableTranslation := false }

/-- C6 (code bug): the `raise HTTPException(status_code=400, ...)` at app.py
line 362 is caught by the handler's own blanket `except Exception` at
line 383 (Starlette's `HTTPException` subclasses `Exception`), so the
missing-input request is answered with HTTP 200 and `success=false`, never
with an HTTP 400 status; the "no 5xx" half of the claim does hold — every
request is answered with status 200. -/
theorem c6_http400_swallowed :
    (analyze_news baseEnv emptyReq).1 = 200 ∧
    (analyze_news baseEnv emptyReq).1 ≠ 400 ∧
    (analyze_news baseEnv emptyReq).2.success = false ∧
    (analyze_news baseEnv emptyReq).2.error = some "400: No text content provided" ∧
    (∀ env : Env, ∀ r : Req, (analyze_news env r).1 = 200) := by
  refine ⟨rfl, by decide, rfl, rfl, ?_⟩
  intro env r
  simp only [analyze_news]
  split <;> (split <;> rfl)

/-- C9: for every request with empty text and empty url, the handler
returns the structured "no content" failure (`success=false`, error message
naming the missing text content) instead of letting an exception escape:
the `HTTPException` raised at line 362 is converted by the `except` at
line 383 into a normal response whose error field is
`str(HTTPException(400, "No text content provided"))`. -/
theorem c9_empty_input_no_content (env : Env) (r : Req)
    (ht : r.text = "") (hu : r.url = "") :
    analyze_news env r =
      (200, { success := false, result := [],
              modelLoaded := env.modelLoaded, geminiReady := env.geminiReady,
              error := some "400: No text content provided" }) := by
  simp [analyze_news, ht, hu]

/-- Witness for C9 at the concrete default request. -/
theorem c9_empty_input_no_content_witness :
    emptyReq.text = "" ∧ emptyReq.url = "" ∧
    analyze_news baseEnv emptyReq =
      (200, { success := false, result := [],
              modelLoaded := baseEnv.modelLoaded, geminiReady := baseEnv.geminiReady,
              error := some "400: No text content provided" }) :=
  ⟨rfl, rfl, c9_empty_input_no_content baseEnv emptyReq rfl rfl⟩

/-- C7: `safe_analyze_news` is a total function into `Result6` — six strings
on every path, which is the formal content of "no exception escapes": every
early return (app.py lines 214-242) and the outer `except` (lines 338-339)
are `Except.error` branches of `analyzeCore` that still yield the six-string
shape — and a missing optional dependency degrades its field while the full
six-element success result is still produced: with the translator missing
the pipeline analyses the original text unchanged, and with Gemini
unavailable the commentary field is the placeholder. -/
theorem c7_total_with_degraded_fields (env : Env) (cfg : Config) (text : String) (co : CoreOut)
    (hta : env.translatorAvailable = false) (hgr : env.geminiReady = false)
    (hco : analyzeCore env cfg text = Except.ok co) :
    safe_analyze_news env cfg text = successResult cfg co ∧
    co.translated = text ∧
    co.geminiResponse = "(Gemini disabled or unavailable)" := by
  obtain ⟨raw, pred, hd, hcl, rfl⟩ := analyzeCore_ok hco
  refine ⟨?_, ?_, ?_⟩
  · rw [safe_analyze_news, hco]
  · show translateStep env cfg text = text
    rw [translateStep, if_pos (Or.inr hta)]
  · show coreGemini env cfg = "(Gemini disabled or unavailable)"
    have h : ¬(cfg.use_gemini = true ∧ env.geminiReady = true) := by simp [hgr]
    rw [coreGemini, if_neg h]

/-- Witness for C7 at the concrete call of `baseEnv`, whose translator and
Gemini are both unavailable. -/
theorem c7_total_with_degraded_fields_witness :
    baseEnv.translatorAvailable = false ∧ baseEnv.geminiReady = false ∧
    (analyzeCore baseEnv baseCfg "hello"
      = Except.ok (mkCore baseEnv baseCfg (translateStep baseEnv baseCfg "hello") 1 "REAL")) ∧
    safe_analyze_news baseEnv baseCfg "hello"
      = successResult baseCfg (mkCore baseEnv baseCfg (translateStep baseEnv baseCfg "hello") 1 "REAL") ∧
    (mkCore baseEnv baseCfg (translateStep baseEnv baseCfg "hello") 1 "REAL").translated = "hello" ∧
    (mkCore baseEnv baseCfg (translateStep baseEnv baseCfg "hello") 1 "REAL").geminiResponse
      = "(Gemini disabled or unavailable)" :=
  ⟨rfl, rfl, rfl, c7_total_with_degraded_fields baseEnv baseCfg "hello" _ rfl rfl rfl⟩

/-- A lookup for `q` in a table headed by `(q, v)` hits. -/
theorem cacheLookup_cons_self (q v : String) (l : List (String × String)) :
    cacheLookup ((q, v) :: l) q = some v := by
  rw [cacheLookup, List.find?_cons_of_pos _ (by simp)]
  rfl

/-- On a hit, moving the found entry to the front preserves the table
length. -/
theorem length_cons_eraseP_of_lookup {l : List (String × String)} {q v : String}
    (h : cacheLookup l q = some v) :
    ((q, v) :: l.eraseP (fun e => e.1 == q)).length = l.length := by
  rw [cacheLookup] at h
  cases hf : l.find? (fun e => e.1 == q) with
  | none => rw [hf] at h; exact absurd h (by simp)
  | some e =>
    have hm : e ∈ l := List.mem_of_find?_eq_some hf
    have hp := List.find?_some hf
    have hlen := @List.length_eraseP_add_one (String × String) (fun e => e.1 == q) l e hm hp
    simp only [List.length_cons]
    exact hlen

/-- C8: a second call of the cached headline fetcher with the identical
query returns the identical cached text without a second execution of the
undecorated body (no second network fetch), and the memo table never grows
beyond the fixed capacity 256, dropping the least recently used entries
when it would (app.py lines 136-137). -/
theorem c8_headline_cache_lru (fetch : String → String) (s : HeadlineCache) (q : String)
    (hcap : s.entries.length ≤ 256) :
    (safe_fetch_headlines fetch s q).2.entries.length ≤ 256 ∧
    (safe_fetch_headlines fetch (safe_fetch_headlines fetch s q).2 q).1
      = (safe_fetch_headlines fetch s q).1 ∧
    (safe_fetch_headlines fetch (safe_fetch_headlines fetch s q).2 q).2.fetchCount
      = (safe_fetch_headlines fetch s q).2.fetchCount ∧
    (safe_fetch_headlines fetch (safe_fetch_headlines fetch s q).2 q).2.entries.length ≤ 256 := by
  cases h1 : cacheLookup s.entries q with
  | some v =>
    have e1 : safe_fetch_headlines fetch s q
        = (v, ⟨(q, v) :: s.entries.eraseP (fun e => e.1 == q), s.fetchCount⟩) := by
      rw [safe_fetch_headlines, h1]
    rw [e1]
    have e2 : safe_fetch_headlines fetch
        (⟨(q, v) :: s.entries.eraseP (fun e => e.1 == q), s.fetchCount⟩ : HeadlineCache) q
        = (v, ⟨(q, v) :: s.entries.eraseP (fun e => e.1 == q), s.fetchCount⟩) := by
      rw [safe_fetch_headlines, cacheLookup_cons_self,
        List.eraseP_cons_of_pos (by simp)]
    rw [e2]
    have hl : ((q, v) :: s.entries.eraseP (fun e => e.1 == q)).length ≤ 256 := by
      rw [length_cons_eraseP_of_lookup h1]; exact hcap
    exact ⟨hl, rfl, rfl, hl⟩
  | none =>
    have e1 : safe_fetch_headlines fetch s q
        = (fetch q, ⟨((q, fetch q) :: s.entries).take 256, s.fetchCount + 1⟩) := by
      rw [safe_fetch_headlines, h1]
    rw [e1]
    have htake : ((q, fetch q) :: s.entries).take 256
        = (q, fetch q) :: s.entries.take 255 := by
      rw [show (256 : ℕ) = 255 + 1 from rfl, List.take_succ_cons]
    have hl1 : (((q, fetch q) :: s.entries).take 256).length ≤ 256 := List.length_take_le _ _
    have e2 : safe_fetch_headlines fetch
        (⟨((q, fetch q) :: s.entries).take 256, s.fetchCount + 1⟩ : HeadlineCache) q
        = (fetch q, ⟨((q, fetch q) :: s.entries).take 256, s.fetchCount + 1⟩) := by
      rw [safe_fetch_headlines, htake, cacheLookup_cons_self,
        List.eraseP_cons_of_pos (by simp)]
    rw [e2]
    exact ⟨hl1, rfl, rfl, hl1⟩

/-- Witness for C8: the empty cache, a constant fetch body, one query asked
twice. -/
theorem c8_headline_cache_lru_witness :
    ((⟨[], 0⟩ : HeadlineCache).entries.length ≤ 256) ∧
    (safe_fetch_headlines (fun _ => "- headline one") ⟨[], 0⟩ "q").2.entries.length ≤ 256 ∧
    (safe_fetch_headlines (fun _ => "- headline one")
        (safe_fetch_headlines (fun _ => "- headline one") ⟨[], 0⟩ "q").2 "q").1
      = (safe_fetch_headlines (fun _ => "- headline one") ⟨[], 0⟩ "q").1 ∧
    (safe_fetch_headlines (fun _ => "- headline one")
        (safe_fetch_headlines (fun _ => "- headline one") ⟨[], 0⟩ "q").2 "q").2.fetchCount
      = (safe_fetch_headlines (fun _ => "- headline one") ⟨[], 0⟩ "q").2.fetchCount ∧
    (safe_fetch_headlines (fun _ => "- headline one")
        (safe_fetch_headlines (fun _ => "- headline one") ⟨[], 0⟩ "q").2 "q").2.entries.length
      ≤ 256 :=
  ⟨by decide, c8_headline_cache_lru (fun _ => "- headline one") ⟨[], 0⟩ "q" (by decide)⟩

/-- C10: for a two-class model and a configured positive label that is a
non-empty string not among the class labels, the code silently orients the
probability as if the positive class were not matched: the probability
index of app.py line 279 defaults to `1` (so line 280 reads the second
class's probability), and in the logistic path the returned pair is
`1 - sigmoid` of the raw and adjusted scores; the block reports no error
for the unrecognized label (it returns a normal probability pair). -/
theorem c10_unmatched_positive_label (c0 c1 p : String) (proba : List ℚ)
    (exp : ℚ → ℚ) (raw adj : ℚ)
    (hp : p ∉ ([c0, c1] : List String)) (hne : p ≠ "") :
    posIndex [c0, c1] p = 1 ∧
    probRawPP [c0, c1] p proba = proba.getD 1 0 ∧
    probPair false proba [c0, c1] (some p) exp raw adj
      = some (1 - sigmoid exp raw, 1 - sigmoid exp adj) := by
  have hp1 : p ≠ c1 := by
    intro h
    exact hp (by simp [h])
  refine ⟨?_, ?_, ?_⟩
  · rw [posIndex, if_neg hp]
  · rw [probRawPP, posIndex, if_neg hp]
  · have hdp : defaultPositive [c0, c1] = c1 := by simp [defaultPositive]
    simp [probPair, orientProb, hdp, hp1]

/-- Witness for C10 at the unrecognized label `"TRUE"`. -/
theorem c10_unmatched_positive_label_witness :
    ("TRUE" ∉ (["FAKE", "REAL"] : List String)) ∧ ("TRUE" : String) ≠ "" ∧
    posIndex ["FAKE", "REAL"] "TRUE" = 1 ∧
    probRawPP ["FAKE", "REAL"] "TRUE" [3/10, 7/10] = ([3/10, 7/10] : List ℚ).getD 1 0 ∧
    probPair false [3/10, 7/10] ["FAKE", "REAL"] (some "TRUE") (fun _ => 1) 1 1
      = some (1 - sigmoid (fun _ => 1) 1, 1 - sigmoid (fun _ => 1) 1) :=
  ⟨by decide, by decide,
    c10_unmatched_positive_label "FAKE" "REAL" "TRUE" [3/10, 7/10]
      (fun _ => 1) 1 1 (by decide) (by decide)⟩

/-- Witness for the amended C3: the concrete call of `baseEnv` has
similarity `0 < 1`, weight `1/2` in `(0, 1]`, raw score `1 ≠ 0`, and its
absolute adjusted score is strictly below the absolute raw score. -/
theorem c3_strict_damping_amended_witness :
    (analyzeCore baseEnv baseCfg "hello"
      = Except.ok (mkCore baseEnv baseCfg (translateStep baseEnv baseCfg "hello") 1 "REAL")) ∧
    (mkCore baseEnv baseCfg (translateStep baseEnv baseCfg "hello") 1 "REAL").simValue
      = some 0 ∧
    (0:ℚ) < 1 ∧ (0:ℚ) < baseCfg.sim_weight ∧ baseCfg.sim_weight ≤ 1 ∧
    (mkCore baseEnv baseCfg (translateStep baseEnv baseCfg "hello") 1 "REAL").raw ≠ 0 ∧
    |(mkCore baseEnv baseCfg (translateStep baseEnv baseCfg "hello") 1 "REAL").adjusted|
      < |(mkCore baseEnv baseCfg (translateStep baseEnv baseCfg "hello") 1 "REAL").raw| :=
  ⟨rfl, rfl, by norm_num, by norm_num [baseCfg], by norm_num [baseCfg],
    by show (1:ℚ) ≠ 0; norm_num,
    c3_strict_damping_amended baseEnv baseCfg "hello" _ 0 rfl rfl (by norm_num)
      (by norm_num [baseCfg]) (by norm_num [baseCfg]) (by show (1:ℚ) ≠ 0; norm_num)⟩
